import Mathlib

/-!
Verification of the A/B test core: a shallow embedding of the statistical
pipeline (`stats.py`: validation, conversion rates, lift, two-proportion
z-test, result aggregation) and the rule-based summary generator
(`copydeck.py`), together with theorems settling the specification claims.

Modelling conventions:
- Python ints are `ℤ`; Python floats are `ℝ` (exact real semantics).
- The standard normal cumulative distribution function `scipy.stats.norm.cdf`
  is an external numeric capability; it is modelled as an explicit parameter
  `Φ : ℝ → ℝ`, with its relevant analytic properties taken as hypotheses
  where a theorem needs them.
- Python exceptions are modelled with `Except`: `InvalidABTestInput` and the
  `ValueError` for a bad `alternative` become the two constructors of
  `ABError`. Error message strings mirror the source (with quote characters
  left out of the `ValueError` message).
- Numeric string formatting (f-string `:+.2f`, `:.3f`, `:.2f`) is abstracted
  as a record of formatting functions `FloatFormat`; the branch structure of
  the summary generator, which is what the claims are about, is modelled
  exactly.
-/

/-- Mirrors the `ABTestResult` dataclass of `stats.py`. -/
structure ABTestResult where
  n_a : ℤ
  c_a : ℤ
  n_b : ℤ
  c_b : ℤ
  cr_a : ℝ
  cr_b : ℝ
  lift_abs : ℝ
  lift_rel : ℝ
  z_score : ℝ
  p_value : ℝ
  alpha : ℝ
  is_significant : Bool

/-- The two error kinds of the core: `InvalidABTestInput` raised by
`validate_inputs`, and the `ValueError` raised by `z_test_proportions` for an
unrecognized alternative. -/
inductive ABError where
  | invalidInput (msg : String)
  | invalidArgument (msg : String)
  deriving DecidableEq, Repr

/-- `conversion_rate(conversions, total)` from `stats.py`: `conversions / total`,
with `0.0` when `total == 0`. -/
noncomputable def conversion_rate (conversions total : ℤ) : ℝ :=
  if total = 0 then 0 else (conversions : ℝ) / (total : ℝ)

/-- `compute_lift(cr_a, cr_b)` from `stats.py`: returns
`(lift_abs, lift_rel)` with `lift_abs = cr_b - cr_a` and
`lift_rel = lift_abs / cr_a` unless `cr_a == 0`, in which case `0.0`. -/
noncomputable def compute_lift (cr_a cr_b : ℝ) : ℝ × ℝ :=
  let lift_abs := cr_b - cr_a
  let lift_rel := if cr_a = 0 then 0 else lift_abs / cr_a
  (lift_abs, lift_rel)

/-- The inner `_raise_if_invalid_group(n, c, label)` of `validate_inputs`:
the first failing check in source order, as an optional message. -/
def raise_if_invalid_group (n c : ℤ) (label : String) : Option String :=
  if n < 0 then some ("Group " ++ label ++ " sample size is negative")
  else if c < 0 then some ("Group " ++ label ++ " conversions are negative")
  else if n = 0 then some ("Group " ++ label ++ " sample size cannot be 0")
  else if c > n then some ("Group " ++ label ++ " conversions are greater than sample size")
  else none

/-- `validate_inputs(n_a, c_a, n_b, c_b)` from `stats.py`: group A is checked
first and its error raised before group B is looked at. -/
def validate_inputs (n_a c_a n_b c_b : ℤ) : Option String :=
  match raise_if_invalid_group n_a c_a "A" with
  | some msg => some msg
  | none => raise_if_invalid_group n_b c_b "B"

/-- The local `pooled = (c_a + c_b) / (n_a + n_b)` of `z_test_proportions`. -/
noncomputable def pooled_prop (n_a c_a n_b c_b : ℤ) : ℝ :=
  ((c_a : ℝ) + (c_b : ℝ)) / ((n_a : ℝ) + (n_b : ℝ))

/-- The local `standard_error = (pooled * (1 - pooled) * (1/n_a + 1/n_b))**0.5`
of `z_test_proportions`. -/
noncomputable def standard_error (n_a c_a n_b c_b : ℤ) : ℝ :=
  Real.sqrt (pooled_prop n_a c_a n_b c_b * (1 - pooled_prop n_a c_a n_b c_b) *
    (1 / (n_a : ℝ) + 1 / (n_b : ℝ)))

/-- The local `z_score = (cr_b - cr_a) / standard_error` of
`z_test_proportions` (only read on the non-degenerate path). -/
noncomputable def z_score (n_a c_a n_b c_b : ℤ) : ℝ :=
  (conversion_rate c_b n_b - conversion_rate c_a n_a) /
    standard_error n_a c_a n_b c_b

/-- `z_test_proportions(n_a, c_a, n_b, c_b, alternative)` from `stats.py`,
parameterized by the normal cdf `Φ`. The degenerate `standard_error == 0`
early return precedes the dispatch on `alternative`, exactly as in the
source. -/
noncomputable def z_test_proportions (Φ : ℝ → ℝ) (n_a c_a n_b c_b : ℤ)
    (alternative : String) : Except ABError (ℝ × ℝ) :=
  if standard_error n_a c_a n_b c_b = 0 then Except.ok (0, 1)
  else if alternative = "two-sided" then
    Except.ok (z_score n_a c_a n_b c_b, 2 * (1 - Φ |z_score n_a c_a n_b c_b|))
  else if alternative = "larger" then
    Except.ok (z_score n_a c_a n_b c_b, 1 - Φ (z_score n_a c_a n_b c_b))
  else if alternative = "smaller" then
    Except.ok (z_score n_a c_a n_b c_b, Φ (z_score n_a c_a n_b c_b))
  else Except.error (ABError.invalidArgument
    "alternative must be two-sided, larger, or smaller")

/-- `run_ab_test(n_a, c_a, n_b, c_b, alpha, alternative)` from `stats.py`:
validate, compute rates and lift, run the z-test, decide significance, and
assemble the result record. -/
noncomputable def run_ab_test (Φ : ℝ → ℝ) (n_a c_a n_b c_b : ℤ) (alpha : ℝ)
    (alternative : String) : Except ABError ABTestResult :=
  match validate_inputs n_a c_a n_b c_b with
  | some msg => Except.error (ABError.invalidInput msg)
  | none =>
    let cr_a := conversion_rate c_a n_a
    let cr_b := conversion_rate c_b n_b
    let lifts := compute_lift cr_a cr_b
    match z_test_proportions Φ n_a c_a n_b c_b alternative with
    | Except.error e => Except.error e
    | Except.ok zp =>
      Except.ok {
        n_a := n_a, c_a := c_a, n_b := n_b, c_b := c_b,
        cr_a := cr_a, cr_b := cr_b,
        lift_abs := lifts.1, lift_rel := lifts.2,
        z_score := zp.1, p_value := zp.2,
        alpha := alpha,
        is_significant := decide (zp.2 < alpha) }

/-- The direction line classifier of `build_result_summary` in `copydeck.py`:
epsilon tolerance `1e-6` on `|lift_abs|`. -/
noncomputable def direction_text (lift_abs : ℝ) : String :=
  if |lift_abs| < 1 / 1000000 then
    "No observable difference between variant B and control A"
  else if 0 < lift_abs then "Variant B performs better than control A"
  else "Variant B performs worse than control A"

/-- The significance line of `build_result_summary`, with the formatted alpha
passed in as text. -/
def significance_text (is_significant : Bool) (alpha_text : String) : String :=
  if is_significant then
    "The result is statistically significant at α = " ++ alpha_text
  else
    "The result is not statistically significant at α = " ++ alpha_text

/-- The recommendation classifier of `build_result_summary`: the exact branch
chain of the source; the final `else` is reached only when `lift_abs` is
exactly zero. -/
noncomputable def reco_text (lift_abs : ℝ) (is_significant : Bool) : String :=
  if 0 < lift_abs ∧ is_significant = true then
    "Recommendation: ship variant B; it shows a statistically significant improvement over control A."
  else if 0 < lift_abs ∧ is_significant = false then
    "Recommendation: continue the test and collect more data before making a decision."
  else if lift_abs < 0 ∧ is_significant = true then
    "Recommendation: keep control A; variant B appears to hurt performance."
  else if lift_abs < 0 ∧ is_significant = false then
    "Recommendation: keep control A for now; there is no strong evidence that variant B improves performance."
  else
    "Recommendation: no clear evidence of a difference between A and B; you may keep control A or redesign the experiment."

/-- Abstracts the three float-formatting f-strings of `build_result_summary`:
`:+.2f` for the relative lift percentage, `:.3f` for the p-value, and `:.2f`
for alpha. -/
structure FloatFormat where
  signed2 : ℝ → String
  fixed3 : ℝ → String
  fixed2 : ℝ → String

/-- The p-value rendering of `build_result_summary`: literal `p < 0.001` below
the threshold, else the formatted value. -/
noncomputable def p_value_text (fmt : FloatFormat) (p_value : ℝ) : String :=
  if p_value < 1 / 1000 then "p < 0.001" else "p = " ++ fmt.fixed3 p_value

/-- `build_result_summary(result)` from `copydeck.py`: the three lines joined
by blank lines, with numeric rendering through `fmt`. -/
noncomputable def build_result_summary (fmt : FloatFormat) (result : ABTestResult) : String :=
  let line1 := direction_text result.lift_abs ++ " (" ++
    fmt.signed2 (result.lift_rel * 100) ++ "%)"
  let line2 := significance_text result.is_significant (fmt.fixed2 result.alpha) ++
    " (" ++ p_value_text fmt result.p_value ++ ")"
  let line3 := reco_text result.lift_abs result.is_significant
  line1 ++ "\n\n" ++ line2 ++ "\n\n" ++ line3

/-- The §3 validity domain: sample sizes at least 1 and conversions between 0
and the sample size. Equivalent to `validate_inputs` succeeding. -/
def valid_inputs (n_a c_a n_b c_b : ℤ) : Prop :=
  1 ≤ n_a ∧ 0 ≤ c_a ∧ c_a ≤ n_a ∧ 1 ≤ n_b ∧ 0 ≤ c_b ∧ c_b ≤ n_b

instance (n_a c_a n_b c_b : ℤ) : Decidable (valid_inputs n_a c_a n_b c_b) := by
  unfold valid_inputs
  infer_instance

/-! ### Helper lemmas -/

lemma raise_if_invalid_group_eq_none {n c : ℤ} (label : String)
    (h1 : 1 ≤ n) (h2 : 0 ≤ c) (h3 : c ≤ n) :
    raise_if_invalid_group n c label = none := by
  unfold raise_if_invalid_group
  rw [if_neg (by omega), if_neg (by omega), if_neg (by omega), if_neg (by omega)]

lemma validate_inputs_eq_none {n_a c_a n_b c_b : ℤ}
    (h : valid_inputs n_a c_a n_b c_b) :
    validate_inputs n_a c_a n_b c_b = none := by
  obtain ⟨h1, h2, h3, h4, h5, h6⟩ := h
  unfold validate_inputs
  rw [raise_if_invalid_group_eq_none "A" h1 h2 h3,
    raise_if_invalid_group_eq_none "B" h4 h5 h6]

lemma conversion_rate_of_pos {c n : ℤ} (h : 1 ≤ n) :
    conversion_rate c n = (c : ℝ) / (n : ℝ) := by
  unfold conversion_rate
  rw [if_neg (by omega)]

lemma standard_error_eq_zero {n_a c_a n_b c_b : ℤ}
    (hv : valid_inputs n_a c_a n_b c_b)
    (hd : c_a + c_b = 0 ∨ c_a + c_b = n_a + n_b) :
    standard_error n_a c_a n_b c_b = 0 := by
  obtain ⟨h1, h2, h3, h4, h5, h6⟩ := hv
  unfold standard_error pooled_prop
  rcases hd with hd | hd
  · have hz : (c_a : ℝ) + (c_b : ℝ) = 0 := by exact_mod_cast hd
    rw [hz]
    simp
  · have hne : (n_a : ℝ) + (n_b : ℝ) ≠ 0 := by
      have : (0 : ℝ) < (n_a : ℝ) + (n_b : ℝ) := by
        have ha : (1 : ℝ) ≤ (n_a : ℝ) := by exact_mod_cast h1
        have hb : (1 : ℝ) ≤ (n_b : ℝ) := by exact_mod_cast h4
        linarith
      linarith
    have hz : (c_a : ℝ) + (c_b : ℝ) = (n_a : ℝ) + (n_b : ℝ) := by exact_mod_cast hd
    rw [hz, div_self hne]
    simp

lemma z_test_degenerate (Φ : ℝ → ℝ) {n_a c_a n_b c_b : ℤ} (alternative : String)
    (h : standard_error n_a c_a n_b c_b = 0) :
    z_test_proportions Φ n_a c_a n_b c_b alternative = Except.ok (0, 1) := by
  unfold z_test_proportions
  rw [if_pos h]

lemma z_test_ok (Φ : ℝ → ℝ) (n_a c_a n_b c_b : ℤ) {alternative : String}
    (halt : alternative = "two-sided" ∨ alternative = "larger" ∨ alternative = "smaller") :
    ∃ z p, z_test_proportions Φ n_a c_a n_b c_b alternative = Except.ok (z, p) := by
  unfold z_test_proportions
  by_cases h : standard_error n_a c_a n_b c_b = 0
  · rw [if_pos h]
    exact ⟨0, 1, rfl⟩
  · rw [if_neg h]
    rcases halt with h' | h' | h' <;> subst h' <;> simp

lemma run_ab_test_eq (Φ : ℝ → ℝ) {n_a c_a n_b c_b : ℤ} (alpha : ℝ) (alternative : String)
    (hv : validate_inputs n_a c_a n_b c_b = none)
    {zp : ℝ × ℝ} (hz : z_test_proportions Φ n_a c_a n_b c_b alternative = Except.ok zp) :
    run_ab_test Φ n_a c_a n_b c_b alpha alternative = Except.ok {
      n_a := n_a, c_a := c_a, n_b := n_b, c_b := c_b,
      cr_a := conversion_rate c_a n_a, cr_b := conversion_rate c_b n_b,
      lift_abs := (compute_lift (conversion_rate c_a n_a) (conversion_rate c_b n_b)).1,
      lift_rel := (compute_lift (conversion_rate c_a n_a) (conversion_rate c_b n_b)).2,
      z_score := zp.1, p_value := zp.2, alpha := alpha,
      is_significant := decide (zp.2 < alpha) } := by
  unfold run_ab_test
  rw [hv]
  simp only [hz]

/-! ### Claim theorems -/

/-- C1 counterexample: with the degenerate zero-standard-error input
`(100, 0, 100, 0)` the early return fires before the `alternative` dispatch,
so `z_test_proportions` returns the pair `(0.0, 1.0)` even for the
unrecognized alternative `"bogus"` — refuting the claim that it never
returns a pair for an unrecognized alternative. -/
theorem c1_counterexample :
    z_test_proportions (fun _ => 1 / 2) 100 0 100 0 "bogus" = Except.ok (0, 1) :=
  z_test_degenerate (fun _ => 1 / 2) "bogus"
    (standard_error_eq_zero (by decide) (Or.inl (by decide)))

/-- C1 (amended): for every input whose standard error is nonzero, and every
alternative outside `{"two-sided", "larger", "smaller"}`,
`z_test_proportions` fails with the invalid-argument error; in the
zero-standard-error case the degenerate `(0.0, 1.0)` return precedes the
alternative check. -/
theorem c1_invalid_alternative (Φ : ℝ → ℝ) (n_a c_a n_b c_b : ℤ) (alternative : String)
    (hse : standard_error n_a c_a n_b c_b ≠ 0)
    (h1 : alternative ≠ "two-sided") (h2 : alternative ≠ "larger")
    (h3 : alternative ≠ "smaller") :
    z_test_proportions Φ n_a c_a n_b c_b alternative =
      Except.error (ABError.invalidArgument
        "alternative must be two-sided, larger, or smaller") := by
  unfold z_test_proportions
  rw [if_neg hse]
  simp only [if_neg h1, if_neg h2, if_neg h3]

/-- C1 witness: the amended theorem applied at the non-degenerate input
`(10, 5, 10, 5)` with alternative `"bogus"`. -/
theorem c1_invalid_alternative_witness :
    z_test_proportions (fun _ => 1 / 2) 10 5 10 5 "bogus" =
      Except.error (ABError.invalidArgument
        "alternative must be two-sided, larger, or smaller") :=
  c1_invalid_alternative (fun _ => 1 / 2) 10 5 10 5 "bogus"
    (by
      unfold standard_error pooled_prop
      rw [Real.sqrt_ne_zero']
      norm_num)
    (by decide) (by decide) (by decide)

/-- C3: `validate_inputs` checks group A completely before group B, in the
fixed order negative size, negative conversions, zero size, conversions
exceed size, reporting the first violated condition; in particular
`validate(-1, 0, 10, 1)` reports the negative group-A sample size and
`validate(10, 11, 10, 1)` reports group-A conversions exceeding the sample
size. -/
theorem c3_validation_order :
    (∀ n_a c_a n_b c_b : ℤ, validate_inputs n_a c_a n_b c_b =
      if n_a < 0 then some "Group A sample size is negative"
      else if c_a < 0 then some "Group A conversions are negative"
      else if n_a = 0 then some "Group A sample size cannot be 0"
      else if c_a > n_a then some "Group A conversions are greater than sample size"
      else if n_b < 0 then some "Group B sample size is negative"
      else if c_b < 0 then some "Group B conversions are negative"
      else if n_b = 0 then some "Group B sample size cannot be 0"
      else if c_b > n_b then some "Group B conversions are greater than sample size"
      else none)
    ∧ validate_inputs (-1) 0 10 1 = some "Group A sample size is negative"
    ∧ validate_inputs 10 11 10 1 = some "Group A conversions are greater than sample size" := by
  refine ⟨?_, by rfl, by rfl⟩
  intro n_a c_a n_b c_b
  unfold validate_inputs raise_if_invalid_group
  split_ifs <;> rfl

/-- C9: for every pair of conversion rates (control rate nonnegative),
`compute_lift` totally returns `lift_abs = cr_b - cr_a` together with
`lift_rel = lift_abs / cr_a` when `cr_a > 0` and `0.0` otherwise. -/
theorem c9_compute_lift (cr_a cr_b : ℝ) (h : 0 ≤ cr_a) :
    compute_lift cr_a cr_b =
      (cr_b - cr_a, if 0 < cr_a then (cr_b - cr_a) / cr_a else 0) := by
  simp only [compute_lift]
  rcases eq_or_lt_of_le h with h0 | h0
  · rw [if_pos h0.symm, if_neg (by rw [← h0]; exact lt_irrefl 0)]
  · rw [if_neg (ne_of_gt h0), if_pos h0]

/-- C9 witness: the theorem applied at the spec example `lift(0.1, 0.15)`. -/
theorem c9_compute_lift_witness :
    compute_lift (1 / 10 : ℝ) (3 / 20) =
      (3 / 20 - 1 / 10, if (0 : ℝ) < 1 / 10 then (3 / 20 - 1 / 10) / (1 / 10) else 0) :=
  c9_compute_lift (1 / 10) (3 / 20) (by norm_num)

/-! ### Further helper lemmas (z-test branches, summary branches) -/

lemma z_test_two_sided (Φ : ℝ → ℝ) (n_a c_a n_b c_b : ℤ)
    (hse : standard_error n_a c_a n_b c_b ≠ 0) :
    z_test_proportions Φ n_a c_a n_b c_b "two-sided" =
      Except.ok (z_score n_a c_a n_b c_b, 2 * (1 - Φ |z_score n_a c_a n_b c_b|)) := by
  unfold z_test_proportions
  rw [if_neg hse, if_pos rfl]

lemma z_test_larger (Φ : ℝ → ℝ) (n_a c_a n_b c_b : ℤ)
    (hse : standard_error n_a c_a n_b c_b ≠ 0) :
    z_test_proportions Φ n_a c_a n_b c_b "larger" =
      Except.ok (z_score n_a c_a n_b c_b, 1 - Φ (z_score n_a c_a n_b c_b)) := by
  unfold z_test_proportions
  rw [if_neg hse, if_neg (by decide), if_pos rfl]

lemma z_test_smaller (Φ : ℝ → ℝ) (n_a c_a n_b c_b : ℤ)
    (hse : standard_error n_a c_a n_b c_b ≠ 0) :
    z_test_proportions Φ n_a c_a n_b c_b "smaller" =
      Except.ok (z_score n_a c_a n_b c_b, Φ (z_score n_a c_a n_b c_b)) := by
  unfold z_test_proportions
  rw [if_neg hse, if_neg (by decide), if_neg (by decide), if_pos rfl]

lemma reco_text_zero (b : Bool) : reco_text 0 b =
    "Recommendation: no clear evidence of a difference between A and B; you may keep control A or redesign the experiment." := by
  unfold reco_text
  rw [if_neg (by rintro ⟨h', -⟩; exact absurd h' (lt_irrefl 0)),
    if_neg (by rintro ⟨h', -⟩; exact absurd h' (lt_irrefl 0)),
    if_neg (by rintro ⟨h', -⟩; exact absurd h' (lt_irrefl 0)),
    if_neg (by rintro ⟨h', -⟩; exact absurd h' (lt_irrefl 0))]

lemma reco_text_pos_true {la : ℝ} (h : 0 < la) : reco_text la true =
    "Recommendation: ship variant B; it shows a statistically significant improvement over control A." := by
  unfold reco_text
  rw [if_pos ⟨h, rfl⟩]

lemma reco_text_pos_false {la : ℝ} (h : 0 < la) : reco_text la false =
    "Recommendation: continue the test and collect more data before making a decision." := by
  unfold reco_text
  rw [if_neg (by rintro ⟨-, hb⟩; exact Bool.noConfusion hb), if_pos ⟨h, rfl⟩]

lemma reco_text_neg_true {la : ℝ} (h : la < 0) : reco_text la true =
    "Recommendation: keep control A; variant B appears to hurt performance." := by
  unfold reco_text
  rw [if_neg (by rintro ⟨h', -⟩; exact absurd h' (asymm h)),
    if_neg (by rintro ⟨h', -⟩; exact absurd h' (asymm h)),
    if_pos ⟨h, rfl⟩]

lemma reco_text_neg_false {la : ℝ} (h : la < 0) : reco_text la false =
    "Recommendation: keep control A for now; there is no strong evidence that variant B improves performance." := by
  unfold reco_text
  rw [if_neg (by rintro ⟨h', -⟩; exact absurd h' (asymm h)),
    if_neg (by rintro ⟨h', -⟩; exact absurd h' (asymm h)),
    if_neg (by rintro ⟨-, hb⟩; exact Bool.noConfusion hb),
    if_pos ⟨h, rfl⟩]

/-- C2: `build_result_summary` applies a two-tier policy to one `lift_abs`
value: the direction line reads "no observable difference" exactly when
`|lift_abs| < 1e-6` (better for positive, worse for negative otherwise),
while the recommendation reaches its "no clear evidence" branch exactly when
`lift_abs = 0`; hence any result with `0 < |lift_abs| < 1e-6` gets the
no-observable-difference direction but a signed-lift recommendation. -/
theorem c2_two_tier :
    (∀ (fmt : FloatFormat) (r : ABTestResult), build_result_summary fmt r =
      (direction_text r.lift_abs ++ " (" ++ fmt.signed2 (r.lift_rel * 100) ++ "%)") ++
      "\n\n" ++
      (significance_text r.is_significant (fmt.fixed2 r.alpha) ++ " (" ++
        p_value_text fmt r.p_value ++ ")") ++ "\n\n" ++
      reco_text r.lift_abs r.is_significant)
    ∧ (∀ la : ℝ, direction_text la =
        "No observable difference between variant B and control A" ↔
        |la| < 1 / 1000000)
    ∧ (∀ la : ℝ, ¬ |la| < 1 / 1000000 →
        (0 < la → direction_text la = "Variant B performs better than control A")
        ∧ (la < 0 → direction_text la = "Variant B performs worse than control A"))
    ∧ (∀ (la : ℝ) (b : Bool), reco_text la b =
        "Recommendation: no clear evidence of a difference between A and B; you may keep control A or redesign the experiment." ↔
        la = 0)
    ∧ (∀ (la : ℝ) (b : Bool), 0 < |la| → |la| < 1 / 1000000 →
        direction_text la = "No observable difference between variant B and control A"
        ∧ reco_text la b ≠
          "Recommendation: no clear evidence of a difference between A and B; you may keep control A or redesign the experiment.") := by
  refine ⟨fun fmt r => rfl, ?_, ?_, ?_, ?_⟩
  · intro la
    unfold direction_text
    by_cases h : |la| < 1 / 1000000
    · rw [if_pos h]
      exact ⟨fun _ => h, fun _ => rfl⟩
    · rw [if_neg h]
      constructor
      · intro heq
        by_cases h2 : 0 < la
        · rw [if_pos h2] at heq
          exact absurd heq (by decide)
        · rw [if_neg h2] at heq
          exact absurd heq (by decide)
      · intro hlt
        exact absurd hlt h
  · intro la h
    unfold direction_text
    rw [if_neg h]
    constructor
    · intro h2
      rw [if_pos h2]
    · intro h2
      rw [if_neg (asymm h2)]
  · intro la b
    constructor
    · intro heq
      by_contra hne
      rcases lt_trichotomy la 0 with h | h | h
      · cases b
        · rw [reco_text_neg_false h] at heq
          exact absurd heq (by decide)
        · rw [reco_text_neg_true h] at heq
          exact absurd heq (by decide)
      · exact hne h
      · cases b
        · rw [reco_text_pos_false h] at heq
          exact absurd heq (by decide)
        · rw [reco_text_pos_true h] at heq
          exact absurd heq (by decide)
    · rintro rfl
      exact reco_text_zero b
  · intro la b h0 heps
    have hne : la ≠ 0 := by
      intro h
      rw [h] at h0
      simp at h0
    refine ⟨?_, ?_⟩
    · unfold direction_text
      rw [if_pos heps]
    · rcases lt_trichotomy la 0 with h | h | h
      · cases b
        · rw [reco_text_neg_false h]
          decide
        · rw [reco_text_neg_true h]
          decide
      · exact absurd h hne
      · cases b
        · rw [reco_text_pos_false h]
          decide
        · rw [reco_text_pos_true h]
          decide

/-- C2 witness: at `lift_abs = 5e-7` (strictly between 0 and 1e-6) the
direction line reports no observable difference while the recommendation is
not the no-clear-evidence branch. -/
theorem c2_two_tier_witness :
    direction_text (1 / 2000000) =
      "No observable difference between variant B and control A"
    ∧ reco_text (1 / 2000000) false ≠
      "Recommendation: no clear evidence of a difference between A and B; you may keep control A or redesign the experiment." :=
  c2_two_tier.2.2.2.2 (1 / 2000000) false
    (by
      have h : (0 : ℝ) < 1 / 2000000 := by norm_num
      rw [abs_of_pos h]
      exact h)
    (by
      have h : (0 : ℝ) < 1 / 2000000 := by norm_num
      rw [abs_of_pos h]
      norm_num)

/-- C4: on valid inputs with pooled proportion 0 or 1 the z-test returns the
degenerate pair `(0.0, 1.0)` without raising, and `run_ab_test` then yields
`z_score = 0`, `p_value = 1`, and `is_significant = false` for every alpha in
`(0, 1)`. -/
theorem c4_degenerate (Φ : ℝ → ℝ) (n_a c_a n_b c_b : ℤ) (alpha : ℝ)
    (alternative : String)
    (hv : valid_inputs n_a c_a n_b c_b)
    (hd : c_a + c_b = 0 ∨ c_a + c_b = n_a + n_b)
    (_h0 : 0 < alpha) (h1 : alpha < 1) :
    z_test_proportions Φ n_a c_a n_b c_b alternative = Except.ok (0, 1)
    ∧ ∃ r, run_ab_test Φ n_a c_a n_b c_b alpha alternative = Except.ok r
        ∧ r.z_score = 0 ∧ r.p_value = 1 ∧ r.is_significant = false := by
  have hse := standard_error_eq_zero hv hd
  have hz := z_test_degenerate Φ alternative hse
  refine ⟨hz, ⟨_, run_ab_test_eq Φ alpha alternative (validate_inputs_eq_none hv) hz,
    rfl, rfl, ?_⟩⟩
  exact decide_eq_false (not_lt.mpr (le_of_lt h1))

/-- C4 witness: the theorem applied at the spec example `run(100, 0, 100, 0)`
with `alpha = 0.05`. -/
theorem c4_degenerate_witness :
    z_test_proportions (fun _ => 1 / 2) 100 0 100 0 "two-sided" = Except.ok (0, 1)
    ∧ ∃ r, run_ab_test (fun _ => 1 / 2) 100 0 100 0 (1 / 20) "two-sided" = Except.ok r
        ∧ r.z_score = 0 ∧ r.p_value = 1 ∧ r.is_significant = false :=
  c4_degenerate (fun _ => 1 / 2) 100 0 100 0 (1 / 20) "two-sided"
    (by decide) (Or.inl (by decide)) (by norm_num) (by norm_num)

/-- C5: on every valid input with a recognized alternative, `run_ab_test`
returns a record with `cr_a = c_a/n_a`, `cr_b = c_b/n_b`, `lift_abs = cr_b -
cr_a` exactly, `is_significant` deciding `p_value < alpha`, the raw inputs
and alpha stored unchanged, and the record uniquely determined by the
inputs. -/
theorem c5_result_invariants (Φ : ℝ → ℝ) (n_a c_a n_b c_b : ℤ) (alpha : ℝ)
    (alternative : String)
    (hv : valid_inputs n_a c_a n_b c_b)
    (halt : alternative = "two-sided" ∨ alternative = "larger" ∨
      alternative = "smaller") :
    ∃ r, run_ab_test Φ n_a c_a n_b c_b alpha alternative = Except.ok r
      ∧ r.cr_a = (c_a : ℝ) / (n_a : ℝ)
      ∧ r.cr_b = (c_b : ℝ) / (n_b : ℝ)
      ∧ r.lift_abs = r.cr_b - r.cr_a
      ∧ r.is_significant = decide (r.p_value < alpha)
      ∧ r.n_a = n_a ∧ r.c_a = c_a ∧ r.n_b = n_b ∧ r.c_b = c_b ∧ r.alpha = alpha
      ∧ ∀ r2, run_ab_test Φ n_a c_a n_b c_b alpha alternative = Except.ok r2 →
          r2 = r := by
  obtain ⟨z, p, hz⟩ := z_test_ok Φ n_a c_a n_b c_b halt
  have hrun := run_ab_test_eq Φ alpha alternative (validate_inputs_eq_none hv) hz
  refine ⟨_, hrun, ?_, ?_, ?_, rfl, rfl, rfl, rfl, rfl, rfl, ?_⟩
  · exact conversion_rate_of_pos hv.1
  · exact conversion_rate_of_pos hv.2.2.2.1
  · show (compute_lift (conversion_rate c_a n_a) (conversion_rate c_b n_b)).1 = _
    simp [compute_lift]
  · intro r2 h2
    rw [hrun] at h2
    exact (Except.ok.inj h2).symm

/-- C5 witness: the theorem applied at the spec end-to-end example
`run(1000, 100, 1000, 130, alpha=0.05, alternative="two-sided")`. -/
theorem c5_result_invariants_witness :
    ∃ r, run_ab_test (fun _ => 1 / 2) 1000 100 1000 130 (1 / 20) "two-sided" =
        Except.ok r
      ∧ r.cr_a = ((100 : ℤ) : ℝ) / ((1000 : ℤ) : ℝ)
      ∧ r.cr_b = ((130 : ℤ) : ℝ) / ((1000 : ℤ) : ℝ)
      ∧ r.lift_abs = r.cr_b - r.cr_a
      ∧ r.is_significant = decide (r.p_value < 1 / 20)
      ∧ r.n_a = 1000 ∧ r.c_a = 100 ∧ r.n_b = 1000 ∧ r.c_b = 130 ∧ r.alpha = 1 / 20
      ∧ ∀ r2, run_ab_test (fun _ => 1 / 2) 1000 100 1000 130 (1 / 20) "two-sided" =
          Except.ok r2 → r2 = r :=
  c5_result_invariants (fun _ => 1 / 2) 1000 100 1000 130 (1 / 20) "two-sided"
    (by decide) (Or.inl rfl)

/-- C6: on every valid input with a recognized alternative the pipeline is
numerically safe: the rate and reciprocal denominators are nonzero, the
pooled denominator is nonzero, the square-root argument is nonnegative, and
`run_ab_test` returns a result rather than an error. -/
theorem c6_no_numeric_faults (Φ : ℝ → ℝ) (n_a c_a n_b c_b : ℤ) (alpha : ℝ)
    (alternative : String)
    (hv : valid_inputs n_a c_a n_b c_b)
    (halt : alternative = "two-sided" ∨ alternative = "larger" ∨
      alternative = "smaller") :
    (n_a : ℝ) ≠ 0 ∧ (n_b : ℝ) ≠ 0 ∧ ((n_a : ℝ) + (n_b : ℝ)) ≠ 0
    ∧ 0 ≤ pooled_prop n_a c_a n_b c_b * (1 - pooled_prop n_a c_a n_b c_b) *
        (1 / (n_a : ℝ) + 1 / (n_b : ℝ))
    ∧ ∃ r, run_ab_test Φ n_a c_a n_b c_b alpha alternative = Except.ok r := by
  obtain ⟨h1, h2, h3, h4, h5, h6⟩ := hv
  have ha : (0 : ℝ) < (n_a : ℝ) := by exact_mod_cast (by omega : (0 : ℤ) < n_a)
  have hb : (0 : ℝ) < (n_b : ℝ) := by exact_mod_cast (by omega : (0 : ℤ) < n_b)
  refine ⟨ne_of_gt ha, ne_of_gt hb, ne_of_gt (by linarith), ?_, ?_⟩
  · have hca : (0 : ℝ) ≤ (c_a : ℝ) := by exact_mod_cast h2
    have hcb : (0 : ℝ) ≤ (c_b : ℝ) := by exact_mod_cast h5
    have hcna : (c_a : ℝ) ≤ (n_a : ℝ) := by exact_mod_cast h3
    have hcnb : (c_b : ℝ) ≤ (n_b : ℝ) := by exact_mod_cast h6
    have hp0 : 0 ≤ pooled_prop n_a c_a n_b c_b :=
      div_nonneg (by linarith) (by linarith)
    have hp1 : pooled_prop n_a c_a n_b c_b ≤ 1 := by
      unfold pooled_prop
      rw [div_le_one (by linarith)]
      linarith
    have hinv : 0 ≤ 1 / (n_a : ℝ) + 1 / (n_b : ℝ) := by positivity
    exact mul_nonneg (mul_nonneg hp0 (by linarith)) hinv
  · obtain ⟨z, p, hz⟩ := z_test_ok Φ n_a c_a n_b c_b halt
    exact ⟨_, run_ab_test_eq Φ alpha alternative
      (validate_inputs_eq_none ⟨h1, h2, h3, h4, h5, h6⟩) hz⟩

/-- C6 witness: the theorem applied at `(1000, 100, 1000, 130)` with the
two-sided alternative. -/
theorem c6_no_numeric_faults_witness :
    ((1000 : ℤ) : ℝ) ≠ 0 ∧ ((1000 : ℤ) : ℝ) ≠ 0
    ∧ (((1000 : ℤ) : ℝ) + ((1000 : ℤ) : ℝ)) ≠ 0
    ∧ 0 ≤ pooled_prop 1000 100 1000 130 * (1 - pooled_prop 1000 100 1000 130) *
        (1 / ((1000 : ℤ) : ℝ) + 1 / ((1000 : ℤ) : ℝ))
    ∧ ∃ r, run_ab_test (fun _ => 1 / 2) 1000 100 1000 130 (1 / 20) "two-sided" =
        Except.ok r :=
  c6_no_numeric_faults (fun _ => 1 / 2) 1000 100 1000 130 (1 / 20) "two-sided"
    (by decide) (Or.inl rfl)

/-- C7: under the cdf range and median properties of Φ, every p-value
returned by `z_test_proportions` on a recognized alternative lies in
`[0, 1]`; the two-sided bound uses `Φ |z| ≥ 1/2`. -/
theorem c7_p_value_range (Φ : ℝ → ℝ)
    (hΦ0 : ∀ x, 0 ≤ Φ x) (hΦ1 : ∀ x, Φ x ≤ 1)
    (hΦhalf : ∀ x, 0 ≤ x → 1 / 2 ≤ Φ x)
    (n_a c_a n_b c_b : ℤ) (alternative : String)
    (halt : alternative = "two-sided" ∨ alternative = "larger" ∨
      alternative = "smaller") :
    ∃ z p, z_test_proportions Φ n_a c_a n_b c_b alternative = Except.ok (z, p)
      ∧ 0 ≤ p ∧ p ≤ 1 := by
  by_cases hse : standard_error n_a c_a n_b c_b = 0
  · exact ⟨0, 1, z_test_degenerate Φ alternative hse, by norm_num, le_refl 1⟩
  · rcases halt with h | h | h <;> subst h
    · refine ⟨_, _, z_test_two_sided Φ n_a c_a n_b c_b hse, ?_, ?_⟩
      · have := hΦ1 |z_score n_a c_a n_b c_b|
        linarith
      · have := hΦhalf |z_score n_a c_a n_b c_b| (abs_nonneg _)
        linarith
    · refine ⟨_, _, z_test_larger Φ n_a c_a n_b c_b hse, ?_, ?_⟩
      · have := hΦ1 (z_score n_a c_a n_b c_b)
        linarith
      · have := hΦ0 (z_score n_a c_a n_b c_b)
        linarith
    · exact ⟨_, _, z_test_smaller Φ n_a c_a n_b c_b hse, hΦ0 _, hΦ1 _⟩

/-- C7 witness: the theorem applied with the constant-half cdf at the input
`(100, 0, 100, 0)` and the two-sided alternative. -/
theorem c7_p_value_range_witness :
    ∃ z p, z_test_proportions (fun _ => 1 / 2) 100 0 100 0 "two-sided" =
        Except.ok (z, p)
      ∧ 0 ≤ p ∧ p ≤ 1 :=
  c7_p_value_range (fun _ => 1 / 2) (fun _ => by norm_num) (fun _ => by norm_num)
    (fun _ _ => by norm_num) 100 0 100 0 "two-sided" (Or.inl rfl)

/-- C8: on a non-degenerate valid input the one-sided p-values for "larger"
and "smaller" are the complementary tails `1 - Φ(z)` and `Φ(z)` of the same
z-score, so they sum to exactly 1. -/
theorem c8_complementary_tails (Φ : ℝ → ℝ) (n_a c_a n_b c_b : ℤ)
    (_hv : valid_inputs n_a c_a n_b c_b)
    (hse : standard_error n_a c_a n_b c_b ≠ 0) :
    ∃ z p_larger p_smaller,
      z_test_proportions Φ n_a c_a n_b c_b "larger" = Except.ok (z, p_larger)
      ∧ z_test_proportions Φ n_a c_a n_b c_b "smaller" = Except.ok (z, p_smaller)
      ∧ p_larger + p_smaller = 1 :=
  ⟨z_score n_a c_a n_b c_b, 1 - Φ (z_score n_a c_a n_b c_b),
    Φ (z_score n_a c_a n_b c_b),
    z_test_larger Φ n_a c_a n_b c_b hse, z_test_smaller Φ n_a c_a n_b c_b hse,
    by ring⟩

/-- C8 witness: the theorem applied at the non-degenerate input
`(10, 5, 10, 5)`. -/
theorem c8_complementary_tails_witness :
    ∃ z p_larger p_smaller,
      z_test_proportions (fun _ => 1 / 2) 10 5 10 5 "larger" = Except.ok (z, p_larger)
      ∧ z_test_proportions (fun _ => 1 / 2) 10 5 10 5 "smaller" = Except.ok (z, p_smaller)
      ∧ p_larger + p_smaller = 1 :=
  c8_complementary_tails (fun _ => 1 / 2) 10 5 10 5 (by decide)
    (by
      unfold standard_error pooled_prop
      rw [Real.sqrt_ne_zero']
      norm_num)

/-- C10: when the z-test takes its degenerate branch on valid inputs, both
conversion rates coincide, so the record has `lift_abs = 0` exactly and, for
alpha at most 1, the summary produces the no-observable-difference direction
line, the not-statistically-significant significance line, and the
no-clear-evidence recommendation. -/
theorem c10_degenerate_summary (Φ : ℝ → ℝ) (n_a c_a n_b c_b : ℤ) (alpha : ℝ)
    (alternative : String)
    (hv : valid_inputs n_a c_a n_b c_b)
    (hd : c_a + c_b = 0 ∨ c_a + c_b = n_a + n_b)
    (h1 : alpha ≤ 1) :
    ∃ r, run_ab_test Φ n_a c_a n_b c_b alpha alternative = Except.ok r
      ∧ r.lift_abs = 0
      ∧ r.is_significant = false
      ∧ direction_text r.lift_abs =
          "No observable difference between variant B and control A"
      ∧ (∀ s, significance_text r.is_significant s =
          "The result is not statistically significant at α = " ++ s)
      ∧ reco_text r.lift_abs r.is_significant =
          "Recommendation: no clear evidence of a difference between A and B; you may keep control A or redesign the experiment." := by
  have hse := standard_error_eq_zero hv hd
  have hz := z_test_degenerate Φ alternative hse
  have hrun := run_ab_test_eq Φ alpha alternative (validate_inputs_eq_none hv) hz
  obtain ⟨ha1, ha2, ha3, hb1, hb2, hb3⟩ := hv
  have hna : (n_a : ℝ) ≠ 0 := Int.cast_ne_zero.mpr (by omega)
  have hnb : (n_b : ℝ) ≠ 0 := Int.cast_ne_zero.mpr (by omega)
  have hcr : conversion_rate c_a n_a = conversion_rate c_b n_b := by
    rcases hd with hd | hd
    · have hc : c_a = 0 ∧ c_b = 0 := by omega
      rw [hc.1, hc.2, conversion_rate_of_pos ha1, conversion_rate_of_pos hb1]
      simp
    · have hc : c_a = n_a ∧ c_b = n_b := by omega
      rw [hc.1, hc.2, conversion_rate_of_pos ha1, conversion_rate_of_pos hb1,
        div_self hna, div_self hnb]
  have hlift : (compute_lift (conversion_rate c_a n_a) (conversion_rate c_b n_b)).1 = 0 := by
    simp [compute_lift, hcr]
  have hsig : decide (((0 : ℝ), (1 : ℝ)).2 < alpha) = false :=
    decide_eq_false (not_lt.mpr h1)
  refine ⟨_, hrun, hlift, hsig, ?_, ?_, ?_⟩
  · show direction_text
      (compute_lift (conversion_rate c_a n_a) (conversion_rate c_b n_b)).1 = _
    rw [hlift]
    unfold direction_text
    rw [if_pos (by rw [abs_zero]; norm_num)]
  · intro s
    show significance_text (decide (((0 : ℝ), (1 : ℝ)).2 < alpha)) s = _
    rw [hsig]
    rfl
  · show reco_text
      (compute_lift (conversion_rate c_a n_a) (conversion_rate c_b n_b)).1
      (decide (((0 : ℝ), (1 : ℝ)).2 < alpha)) = _
    rw [hlift, hsig]
    exact reco_text_zero false

/-- C10 witness: the theorem applied at the degenerate input
`(100, 0, 100, 0)` with `alpha = 0.05`. -/
theorem c10_degenerate_summary_witness :
    ∃ r, run_ab_test (fun _ => 1 / 2) 100 0 100 0 (1 / 20) "two-sided" = Except.ok r
      ∧ r.lift_abs = 0
      ∧ r.is_significant = false
      ∧ direction_text r.lift_abs =
          "No observable difference between variant B and control A"
      ∧ (∀ s, significance_text r.is_significant s =
          "The result is not statistically significant at α = " ++ s)
      ∧ reco_text r.lift_abs r.is_significant =
          "Recommendation: no clear evidence of a difference between A and B; you may keep control A or redesign the experiment." :=
  c10_degenerate_summary (fun _ => 1 / 2) 100 0 100 0 (1 / 20) "two-sided"
    (by decide) (Or.inl (by decide)) (by norm_num)
